import Mathlib

/-!
Verification of the account-service request-validation and persistence
logic (`service/routes.py`) against its specification.

Python values arriving in a JSON body are modelled by `PyVal`; a JSON
object / Python mapping is an association list `PyDict` whose lookups go
through `pyGet`, mirroring `dict.get`.  The email regular expression and
`date.fromisoformat` are embedded as executable character-list functions.
The `Account` model and repository live in `service/models.py`, which is
not part of the sources; those definitions are modelled from the spec and
marked as such.
-/

/-- A Python value as it can appear in a decoded JSON body: a string, an
integer, a boolean, or `None` (JSON null). -/
inductive PyVal where
  | str (s : String)
  | int (n : Int)
  | bool (b : Bool)
  | null
deriving DecidableEq, Repr

/-- A Python mapping (decoded JSON object): keys paired with values.
All access goes through `pyGet`, so duplicate keys behave like the
first-bound key consistently. -/
abbrev PyDict := List (String × PyVal)

/-- `d.get(k)` of a Python dict: the value at key `k`, if present. -/
def pyGet (d : PyDict) (k : String) : Option PyVal :=
  (d.find? (fun kv => kv.1 == k)).map (fun kv => kv.2)

/-- Python regex `\w` (modelled over ASCII): letters, digits, underscore. -/
def isWordChar (c : Char) : Bool :=
  c.isAlphanum || c == '_'

/-- A character of the class `[\w\.-]`: word characters, dots, hyphens. -/
def isLocalChar (c : Char) : Bool :=
  isWordChar c || c == '.' || c == '-'

/-- Whole-string matching of `[\w\.-]+@[\w\.-]+\.\w+`: the string must be
a nonempty run of `[\w\.-]` characters, one `@`, a nonempty run of
`[\w\.-]` characters, a dot, and a final nonempty run of `\w` characters.
Since `@` belongs to neither class, the split at the first `@` and at the
last dot is the only candidate. -/
def emailCore (cs : List Char) : Bool :=
  let before := cs.takeWhile (fun c => c != '@')
  match cs.dropWhile (fun c => c != '@') with
  | '@' :: after =>
    (!before.isEmpty && before.all isLocalChar) &&
    (let r := after.reverse
     let tld := r.takeWhile isWordChar
     match r.dropWhile isWordChar with
     | '.' :: dom => !tld.isEmpty && !dom.isEmpty && dom.all isLocalChar
     | _ => false)
  | _ => false

/-- `validate_email` from `routes.py`: `re.match` of
`^[\w\.-]+@[\w\.-]+\.\w+$`.  Python's `$` also matches just before one
trailing newline, which the second disjunct reproduces. -/
def validate_email (email : String) : Bool :=
  emailCore email.data ||
  (match email.data.getLast? with
   | some c => c == '\n' && emailCore email.data.dropLast
   | _ => false)

/-- Gregorian leap-year rule, as used by Python's `datetime.date`. -/
def isLeapYear (y : Nat) : Bool :=
  y % 4 == 0 && (y % 100 != 0 || y % 400 == 0)

/-- Number of days in month `m` of year `y`. -/
def daysInMonth (y m : Nat) : Nat :=
  if m == 2 then (if isLeapYear y then 29 else 28)
  else if m == 4 || m == 6 || m == 9 || m == 11 then 30
  else 31

/-- Numeric value of an ASCII digit character. -/
def digitVal (c : Char) : Nat :=
  c.toNat - 48

/-- `date.fromisoformat` succeeds on `s`: exactly the strict
`YYYY-MM-DD` layout with ASCII digits, year at least 1 (Python's
`MINYEAR`), month 1..12 and day within the month's length. -/
def isoDateOk (s : String) : Bool :=
  match s.data with
  | [y1, y2, y3, y4, h1, m1, m2, h2, d1, d2] =>
    y1.isDigit && y2.isDigit && y3.isDigit && y4.isDigit &&
    h1 == '-' && h2 == '-' &&
    m1.isDigit && m2.isDigit && d1.isDigit && d2.isDigit &&
    (let y := 1000 * digitVal y1 + 100 * digitVal y2 + 10 * digitVal y3 + digitVal y4
     let m := 10 * digitVal m1 + digitVal m2
     let d := 10 * digitVal d1 + digitVal d2
     1 ≤ y && 1 ≤ m && m ≤ 12 && 1 ≤ d && d ≤ daysInMonth y m)
  | _ => false

/-- `date.fromisoformat(v)` succeeds: `v` must be a string (otherwise
`TypeError`) that parses as a valid calendar date (otherwise
`ValueError`); both exceptions are caught by the validator. -/
def fromisoformatOk (v : PyVal) : Bool :=
  match v with
  | .str s => isoDateOk s
  | _ => false

/-- `validate_account_data` from `routes.py`, mirroring its early-return
chain: `name` must be a string; `email` must be a string accepted by
`validate_email`; `address` must be a string; `phone_number`, if the key
is present, must be a string; `date_joined`, if the key is present, must
survive `date.fromisoformat`. -/
def validate_account_data (account_data : PyDict) : Bool :=
  match pyGet account_data "name" with
  | some (.str _) =>
    match pyGet account_data "email" with
    | some (.str e) =>
      if validate_email e then
        match pyGet account_data "address" with
        | some (.str _) =>
          (match pyGet account_data "phone_number" with
           | some (.str _) => true
           | some _ => false
           | _ => true) &&
          (match pyGet account_data "date_joined" with
           | some v => fromisoformatOk v
           | _ => true)
        | _ => false
      else false
    | _ => false
  | _ => false

/-- Key `k` is present in `d` with a string value. -/
def presentString (d : PyDict) (k : String) : Prop :=
  ∃ s, pyGet d k = some (PyVal.str s)

/-- The validation rules exactly as the specification words them: `name`
present and a string; `email` present, a string, and matching the email
pattern; `address` present and a string; `phone_number`, when present, a
string; `date_joined`, when present, a string parseable as an ISO-8601
calendar date. -/
def claimValid (d : PyDict) : Prop :=
  presentString d "name" ∧
  (∃ e, pyGet d "email" = some (PyVal.str e) ∧ validate_email e = true) ∧
  presentString d "address" ∧
  (∀ v, pyGet d "phone_number" = some v → ∃ s, v = PyVal.str s) ∧
  (∀ v, pyGet d "date_joined" = some v → ∃ s, v = PyVal.str s ∧ isoDateOk s = true)

/-- The two Python exception classes `date.fromisoformat` can raise on a
JSON-derived value, both caught by the validator. -/
inductive PyExc where
  | typeError
  | valueError
deriving DecidableEq, Repr

/-- `date.fromisoformat` with its exception behaviour: `TypeError` on a
non-string argument, `ValueError` on a string that is not a valid
`YYYY-MM-DD` date. -/
def fromisoformatE (v : PyVal) : Except PyExc Unit :=
  match v with
  | .str s => if isoDateOk s then Except.ok () else Except.error PyExc.valueError
  | _ => Except.error PyExc.typeError

/-- The validator's `date_joined` block with explicit exceptions: the
`try`/`except (TypeError, ValueError)` turns either exception into the
return value `False`; parse success falls through to `return True`. -/
def dateCheckE (d : PyDict) : Except PyExc Bool :=
  match pyGet d "date_joined" with
  | some v =>
    match fromisoformatE v with
    | Except.error PyExc.typeError => Except.ok false
    | Except.error PyExc.valueError => Except.ok false
    | Except.ok _ => Except.ok true
  | _ => Except.ok true

/-- `validate_account_data` in an explicit exception monad, mirroring the
Python control flow statement by statement. -/
def validate_account_dataE (account_data : PyDict) : Except PyExc Bool :=
  match pyGet account_data "name" with
  | some (.str _) =>
    match pyGet account_data "email" with
    | some (.str e) =>
      if validate_email e then
        match pyGet account_data "address" with
        | some (.str _) =>
          match pyGet account_data "phone_number" with
          | some (.str _) => dateCheckE account_data
          | some _ => Except.ok false
          | _ => dateCheckE account_data
        | _ => Except.ok false
      else Except.ok false
    | _ => Except.ok false
  | _ => Except.ok false

/-- Modelled from the spec: the `Account` entity of `service/models.py`,
which is not among the sources.  `id` is a server-generated integer;
`name`, `email`, `address` are strings; `phone_number` is an optional
string; `date_joined` is a calendar-date string, defaulted to the
creation date when absent from the input. -/
structure Account where
  id : Nat
  name : String
  email : String
  address : String
  phone_number : Option String
  date_joined : String
deriving DecidableEq, Repr

/-- The string stored at key `k`; used only after validation has
established that the key holds a string. -/
def pyGetStr (d : PyDict) (k : String) : String :=
  match pyGet d k with
  | some (.str s) => s
  | _ => ""

/-- Modelled from the spec: field population of `Account.deserialize` —
entity fields are taken from the JSON object's matching keys, unknown
keys are ignored, a missing `phone_number` is left unset and a missing
`date_joined` defaults to the creation date `today`.  The `id` field is
never taken from the body. -/
def deserializeFields (today : String) (data : PyDict) : Account :=
  { id := 0,
    name := pyGetStr data "name",
    email := pyGetStr data "email",
    address := pyGetStr data "address",
    phone_number := match pyGet data "phone_number" with
                    | some (.str p) => some p
                    | _ => none,
    date_joined := match pyGet data "date_joined" with
                   | some (.str dj) => dj
                   | _ => today }

/-- Modelled from the spec: `Account.deserialize` — the body must
deserialize into valid account fields (§4.1); invalid fields raise a
data-validation error, which the service surfaces as 400. -/
def deserialize (today : String) (data : PyDict) : Option Account :=
  if validate_account_data data then some (deserializeFields today data) else none

/-- Modelled from the spec: `Account.serialize` — a JSON object with keys
`id, name, email, address, phone_number, date_joined`, the date rendered
as a `YYYY-MM-DD` string and an absent `phone_number` rendered as null. -/
def serialize (a : Account) : PyDict :=
  [("id", PyVal.int (Int.ofNat a.id)),
   ("name", PyVal.str a.name),
   ("email", PyVal.str a.email),
   ("address", PyVal.str a.address),
   ("phone_number", match a.phone_number with
                    | some p => PyVal.str p
                    | _ => PyVal.null),
   ("date_joined", PyVal.str a.date_joined)]

/-- Modelled from the spec: the backing relational store — the persisted
accounts together with the next id the repository will assign. -/
structure Store where
  accounts : List Account
  nextId : Nat
deriving DecidableEq, Repr

/-- Modelled from the spec: `Account.create` — assigns a new unique id
and persists all supplied fields, committing before returning. -/
def Account.create (a : Account) (s : Store) : Account × Store :=
  let a1 := { a with id := s.nextId }
  (a1, { accounts := s.accounts ++ [a1], nextId := s.nextId + 1 })

/-- Modelled from the spec: `Account.find` / `Account.query.get` —
returns the record with the given id or an absent indicator; never
raises for a missing id. -/
def Account.find (account_id : Nat) (s : Store) : Option Account :=
  s.accounts.find? (fun a => a.id == account_id)

/-- Modelled from the spec: committing an updated record — the stored
record with the same id is overwritten in place. -/
def storeUpdate (a : Account) (s : Store) : Store :=
  { s with accounts := s.accounts.map (fun b => if b.id == a.id then a else b) }

/-- Modelled from the spec: `db.session.delete` plus commit — a hard
delete of the record with the given id, no tombstone. -/
def storeDelete (account_id : Nat) (s : Store) : Store :=
  { s with accounts := s.accounts.filter (fun a => a.id != account_id) }

/-- An HTTP response body: empty, a JSON object, or an error message. -/
inductive Body where
  | empty
  | json (d : PyDict)
  | message (m : String)
deriving DecidableEq, Repr

/-- The parts of an HTTP response the handlers construct: status code,
body, and the optional `Location` header. -/
structure Response where
  status : Nat
  body : Body
  location : Option String
deriving DecidableEq, Repr

/-- `check_content_type` from `routes.py`: the request passes when the
`Content-Type` header is present, truthy (non-empty, per Python's `and`)
and equal to the expected media type; otherwise the handler aborts 415. -/
def check_content_type (contentType : Option String) (media_type : String) : Bool :=
  match contentType with
  | some ct => ct != "" && ct == media_type
  | _ => false

/-- `create_accounts` from `routes.py` (POST /accounts): abort 415 on a
wrong content type before touching the store; deserialize the body (400
on invalid fields, via the spec-modelled `deserialize`); persist; answer
201 with the serialized new account and a `Location` header. -/
def create_accounts (today : String) (contentType : Option String)
    (body : PyDict) (s : Store) : Response × Store :=
  if check_content_type contentType "application/json" then
    match deserialize today body with
    | some a =>
      let created := Account.create a s
      ({ status := 201, body := Body.json (serialize created.1),
         location := some "/" }, created.2)
    | _ => ({ status := 400, body := Body.message "Invalid account data",
              location := none }, s)
  else
    ({ status := 415, body := Body.message "Content-Type must be application/json",
       location := none }, s)

/-- `get_accounts` from `routes.py` (GET /accounts/{id}): 404 when the id
does not resolve, otherwise 200 with the serialized account. -/
def get_accounts (account_id : Nat) (s : Store) : Response × Store :=
  match Account.find account_id s with
  | some a => ({ status := 200, body := Body.json (serialize a),
                 location := none }, s)
  | _ => ({ status := 404, body := Body.message "Account could not be found.",
            location := none }, s)

/-- `update_account` from `routes.py` (PUT /accounts/{id}): 404 when the
id does not resolve; then 400 when `validate_account_data` rejects the
body; otherwise the record's fields are overwritten from the body
(deserialization leaves `id` untouched), committed, and the response is
200 with the serialized updated account. -/
def update_account (today : String) (account_id : Nat) (body : PyDict)
    (s : Store) : Response × Store :=
  match Account.find account_id s with
  | some a =>
    if validate_account_data body then
      let a1 := { deserializeFields today body with id := a.id }
      ({ status := 200, body := Body.json (serialize a1), location := none },
       storeUpdate a1 s)
    else
      ({ status := 400, body := Body.message "Invalid account data provided.",
         location := none }, s)
  | _ => ({ status := 404, body := Body.message "Account was not found.",
            location := none }, s)

/-- `delete_account` from `routes.py` (DELETE /accounts/{id}): 404 when
the id does not resolve, otherwise the record is deleted and the
response is 204 with an empty body. -/
def delete_account (account_id : Nat) (s : Store) : Response × Store :=
  match Account.find account_id s with
  | some _ => ({ status := 204, body := Body.empty, location := none },
               storeDelete account_id s)
  | _ => ({ status := 404, body := Body.message "Account was not found.",
            location := none }, s)

/-- An empty store whose next generated id is 1. -/
def store0 : Store :=
  { accounts := [], nextId := 1 }

/-- A concrete persisted account, used to instantiate the theorems. -/
def acct1 : Account :=
  { id := 1, name := "Ann", email := "ann@example.com", address := "1 Rd",
    phone_number := none, date_joined := "2023-01-01" }

/-- A store holding `acct1`, with next id 2. -/
def store1 : Store :=
  { accounts := [acct1], nextId := 2 }

/-- A valid POST/PUT body (the spec's concrete scenario). -/
def bodyAnn : PyDict :=
  [("name", PyVal.str "Ann"), ("email", PyVal.str "ann@example.com"),
   ("address", PyVal.str "1 Rd")]

/-- An invalid body: numeric `name`, malformed `email` (the test suite's
invalid-update payload). -/
def bodyBad : PyDict :=
  [("name", PyVal.int 1234), ("email", PyVal.str "invalid")]

/-- A valid body whose `name`, `address` and `phone_number` are all the
empty string. -/
def bodyEmptyStrings : PyDict :=
  [("name", PyVal.str ""), ("email", PyVal.str "a@b.c"),
   ("address", PyVal.str ""), ("phone_number", PyVal.str "")]

/-- A full replacement body (the test suite's valid-update payload). -/
def bodyUpd : PyDict :=
  [("name", PyVal.str "Updated Account Name"),
   ("email", PyVal.str "updated.email@example.com"),
   ("address", PyVal.str "123 Updated St"),
   ("phone_number", PyVal.str "1234567890"),
   ("date_joined", PyVal.str "2022-12-31")]

/-- The validator returns `true` exactly on the inputs satisfying the
specification's rule list. -/
lemma validate_iff (d : PyDict) : validate_account_data d = true ↔ claimValid d := by
  unfold validate_account_data claimValid presentString
  generalize pyGet d "name" = kn
  generalize pyGet d "email" = oe
  generalize pyGet d "address" = oa
  generalize pyGet d "phone_number" = op
  generalize pyGet d "date_joined" = od
  rcases kn with _ | (ns | nn | nb | _)
  · simp
  · rcases oe with _ | (es | en | eb | _)
    · simp
    · by_cases hve : validate_email es = true
      · rcases oa with _ | (ss | sn | sb | _)
        · simp [hve]
        · rcases op with _ | (ps | pn | pb | _) <;>
            rcases od with _ | (ds | dn | db | _) <;>
            simp [hve, fromisoformatOk]
        · simp [hve]
        · simp [hve]
        · simp [hve]
      · simp [hve]
    · simp
    · simp
    · simp
  · simp
  · simp
  · simp

/-- The exception-level date block never lets an exception escape and
agrees with the boolean date check. -/
lemma dateCheckE_eq (d : PyDict) :
    dateCheckE d =
      Except.ok (match pyGet d "date_joined" with
                 | some v => fromisoformatOk v
                 | _ => true) := by
  unfold dateCheckE
  generalize pyGet d "date_joined" = od
  rcases od with _ | (s | n | b | _)
  · rfl
  · by_cases h : isoDateOk s = true <;> simp [fromisoformatE, fromisoformatOk, h]
  · rfl
  · rfl
  · rfl

/-- Looking up `i` after overwriting the record found at `i` yields the
replacement record. -/
lemma find?_map_update (l : List Account) (i : Nat) (a a1 : Account)
    (hid : a1.id = a.id) :
    l.find? (fun b => b.id == i) = some a →
      (l.map (fun b => if b.id == a1.id then a1 else b)).find?
          (fun b => b.id == i) = some a1 := by
  induction l with
  | nil => intro h; simp at h
  | cons x xs ih =>
    intro h
    have hai : a.id = i := by simpa using List.find?_some h
    by_cases hx : x.id = i
    · have hpos : (x.id == i) = true := by simpa using hx
      simp only [List.find?_cons, hpos] at h
      have hax : x = a := by simpa using h
      have h1 : (x.id == a1.id) = true := by simp [hax, hid]
      have h2 : (a1.id == i) = true := by simp [hid, hai]
      simp only [List.map_cons, if_pos h1]
      simp [List.find?_cons, h2]
    · have hneg : (x.id == i) = false := by simpa using hx
      simp only [List.find?_cons, hneg] at h
      have h1 : ¬ ((x.id == a1.id) = true) := by
        simp only [beq_iff_eq]
        rw [hid, hai]
        exact hx
      simp only [List.map_cons, if_neg h1]
      simp only [List.find?_cons, hneg]
      exact ih h

/-- Looking up a fresh id after appending a record carrying it finds the
appended record, provided every persisted id is below the fresh one. -/
lemma find?_append_fresh (l : List Account) (n : Nat) (a1 : Account)
    (hwf : ∀ a ∈ l, a.id < n) (hid : a1.id = n) :
    (l ++ [a1]).find? (fun b => b.id == n) = some a1 := by
  induction l with
  | nil => simp [List.find?, hid]
  | cons x xs ih =>
    have hx : x.id < n := hwf x (List.mem_cons_self x xs)
    have hneg : (x.id == n) = false := by
      simp only [beq_eq_false_iff_ne]
      omega
    rw [List.cons_append]
    simp only [List.find?_cons, hneg]
    exact ih fun a ha => hwf a (List.mem_cons_of_mem x ha)

/-- After deleting an id, looking it up comes back absent. -/
lemma find_delete (i : Nat) (s : Store) :
    Account.find i (storeDelete i s) = none := by
  unfold Account.find storeDelete
  rw [List.find?_eq_none]
  intro x hx
  have h2 := (List.mem_filter.mp hx).2
  simp only [bne_iff_ne] at h2
  simp only [beq_iff_eq]
  exact h2

example : validate_email "ann@example.com" = true := by decide
example : validate_email "bad" = false := by decide
example : validate_email "a@b.c" = true := by decide
example : validate_email "a@b" = false := by decide
example : validate_email "a@b.c\n" = true := by decide
example : validate_email "@b.c" = false := by decide
example : validate_email "a.b-c_d@x.y-z.org" = true := by decide
example : validate_email "a@b@c.d" = false := by decide
example : isoDateOk "2022-12-31" = true := by decide
example : isoDateOk "2022-02-29" = false := by decide
example : isoDateOk "2020-02-29" = true := by decide
example : isoDateOk "2022-1-01" = false := by decide
example : isoDateOk "0000-01-01" = false := by decide
example : validate_account_data bodyAnn = true := by decide
example : validate_account_data bodyBad = false := by decide
example : validate_account_data [("name", .str "not enough data")] = false := by
  decide
example : validate_account_data
  [("name", .str "Ann"), ("email", .str "ann@example.com"),
   ("address", .str "1 Rd"), ("date_joined", .str "2022-13-01")] = false := by
  decide

/-- C1: for every mapping `data`, `validate_account_data data` returns
`true` if and only if `name` is present and a string, `email` is present,
a string and matches `^[\w.-]+@[\w.-]+\.\w+$`, `address` is present and a
string, `phone_number` when present is a string, and `date_joined` when
present is a string parseable as a valid ISO-8601 `YYYY-MM-DD` date. -/
theorem claim_C1_validate_iff_rules (d : PyDict) :
    validate_account_data d = true ↔ claimValid d :=
  validate_iff d

/-- C2: the validator is total on mappings: run in an explicit exception
monad that mirrors the Python control flow, it never lets an exception
escape and always returns the boolean computed by the pure function, so
missing fields, wrongly typed fields and unparseable dates yield `false`
rather than an error. -/
theorem claim_C2_validate_total (d : PyDict) :
    validate_account_dataE d = Except.ok (validate_account_data d) := by
  unfold validate_account_dataE validate_account_data
  simp only [dateCheckE_eq]
  generalize pyGet d "name" = kn
  generalize pyGet d "email" = oe
  generalize pyGet d "address" = oa
  generalize pyGet d "phone_number" = op
  generalize pyGet d "date_joined" = od
  rcases kn with _ | (ns | nn | nb | _)
  · rfl
  · rcases oe with _ | (es | en | eb | _)
    · rfl
    · by_cases hve : validate_email es = true
      · rcases oa with _ | (ss | sn | sb | _)
        · simp [hve]
        · rcases op with _ | (ps | pn | pb | _) <;>
            rcases od with _ | (ds | dn | db | _) <;>
            simp [hve, fromisoformatOk]
        · simp [hve]
        · simp [hve]
        · simp [hve]
      · simp [hve]
    · rfl
    · rfl
    · rfl
  · rfl
  · rfl
  · rfl

example : validate_account_data bodyUpd = true := by decide
example : validate_account_data bodyEmptyStrings = true := by decide

/-- C3: a POST /accounts request whose Content-Type header is not equal
to `application/json` (including an absent header) is answered 415
Unsupported Media Type and the store is unchanged: no account is
created. -/
theorem claim_C3_post_wrong_content_type (today : String) (ct : Option String)
    (body : PyDict) (s : Store) (h : ct ≠ some "application/json") :
    (create_accounts today ct body s).1.status = 415 ∧
      (create_accounts today ct body s).2 = s := by
  have hcc : check_content_type ct "application/json" = false := by
    rcases ct with _ | c
    · rfl
    · have hne : c ≠ "application/json" := fun hc => h (by rw [hc])
      simp [check_content_type, hne]
  constructor <;> simp [create_accounts, hcc]

/-- Witness for C3: posting with no Content-Type header to the empty
store is answered 415 and leaves the store empty. -/
theorem claim_C3_witness :
    (create_accounts "2023-01-01" none bodyAnn store0).1.status = 415 ∧
      (create_accounts "2023-01-01" none bodyAnn store0).2 = store0 :=
  claim_C3_post_wrong_content_type "2023-01-01" none bodyAnn store0
    (fun hc => Option.noConfusion hc)

/-- C4: a POST /accounts request with Content-Type `application/json`
whose body deserializes into valid account fields is answered 201
Created; the response body is the serialization of the newly created
account, carrying the server-generated id `s.nextId`; a `Location`
header is set; and the new account is appended to the store. -/
theorem claim_C4_post_created (today : String) (body : PyDict) (s : Store)
    (hv : validate_account_data body = true) :
    (create_accounts today (some "application/json") body s).1.status = 201 ∧
      (create_accounts today (some "application/json") body s).1.body =
        Body.json (serialize { deserializeFields today body with id := s.nextId }) ∧
      (create_accounts today (some "application/json") body s).1.location.isSome = true ∧
      (create_accounts today (some "application/json") body s).2.accounts =
        s.accounts ++ [{ deserializeFields today body with id := s.nextId }] := by
  have hcc : check_content_type (some "application/json") "application/json" = true := rfl
  refine ⟨?_, ?_, ?_, ?_⟩ <;>
    simp [create_accounts, hcc, deserialize, hv, Account.create]

/-- Witness for C4: the spec's concrete scenario, posting Ann's data to
the empty store. -/
theorem claim_C4_witness :
    (create_accounts "2023-01-01" (some "application/json") bodyAnn store0).1.status = 201 ∧
      (create_accounts "2023-01-01" (some "application/json") bodyAnn store0).1.body =
        Body.json (serialize { deserializeFields "2023-01-01" bodyAnn with id := store0.nextId }) ∧
      (create_accounts "2023-01-01" (some "application/json") bodyAnn store0).1.location.isSome = true ∧
      (create_accounts "2023-01-01" (some "application/json") bodyAnn store0).2.accounts =
        store0.accounts ++ [{ deserializeFields "2023-01-01" bodyAnn with id := store0.nextId }] :=
  claim_C4_post_created "2023-01-01" bodyAnn store0 (by decide)

/-- C5: a PUT /accounts/{id} request whose id resolves to an existing
record and whose body passes validation is answered 200 OK with the
serialized updated account; the update is a full replace — the stored
record becomes exactly the account deserialized from the body, with the
record's `id` preserved. -/
theorem claim_C5_put_replaces (today : String) (i : Nat) (body : PyDict)
    (s : Store) (a : Account) (hf : Account.find i s = some a)
    (hv : validate_account_data body = true) :
    (update_account today i body s).1.status = 200 ∧
      (update_account today i body s).1.body =
        Body.json (serialize { deserializeFields today body with id := a.id }) ∧
      Account.find i (update_account today i body s).2 =
        some { deserializeFields today body with id := a.id } := by
  have hup : Account.find i
      (storeUpdate { deserializeFields today body with id := a.id } s) =
      some { deserializeFields today body with id := a.id } := by
    unfold Account.find at hf
    unfold Account.find storeUpdate
    exact find?_map_update s.accounts i a _ rfl hf
  refine ⟨?_, ?_, ?_⟩ <;> simp [update_account, hf, hv, hup]

/-- Witness for C5: replacing Ann's record (id 1) with the test suite's
full replacement body. -/
theorem claim_C5_witness :
    (update_account "2023-01-01" 1 bodyUpd store1).1.status = 200 ∧
      (update_account "2023-01-01" 1 bodyUpd store1).1.body =
        Body.json (serialize { deserializeFields "2023-01-01" bodyUpd with id := acct1.id }) ∧
      Account.find 1 (update_account "2023-01-01" 1 bodyUpd store1).2 =
        some { deserializeFields "2023-01-01" bodyUpd with id := acct1.id } :=
  claim_C5_put_replaces "2023-01-01" 1 bodyUpd store1 acct1 (by decide) (by decide)

/-- C6: a PUT /accounts/{id} request whose id resolves to an existing
record but whose body fails validation is answered 400 Bad Request and
the store is unchanged: the stored record keeps its previous fields. -/
theorem claim_C6_put_invalid_400 (today : String) (i : Nat) (body : PyDict)
    (s : Store) (a : Account) (hf : Account.find i s = some a)
    (hv : validate_account_data body = false) :
    (update_account today i body s).1.status = 400 ∧
      (update_account today i body s).2 = s := by
  constructor <;> simp [update_account, hf, hv]

/-- Witness for C6: updating Ann's record with the invalid payload
`{"name": 1234, "email": "invalid"}` is answered 400 and leaves the
store as it was. -/
theorem claim_C6_witness :
    (update_account "2023-01-01" 1 bodyBad store1).1.status = 400 ∧
      (update_account "2023-01-01" 1 bodyBad store1).2 = store1 :=
  claim_C6_put_invalid_400 "2023-01-01" 1 bodyBad store1 acct1 (by decide) (by decide)

/-- C7: for an id absent from the store, GET /accounts/{id} and
DELETE /accounts/{id} both answer 404; deleting an existing account
answers 204 with an empty body and removes the record, so a second
DELETE of the same id answers 404. -/
theorem claim_C7_get_delete_not_found (i : Nat) (s : Store) :
    (Account.find i s = none →
      (get_accounts i s).1.status = 404 ∧ (delete_account i s).1.status = 404) ∧
    (∀ a, Account.find i s = some a →
      (delete_account i s).1.status = 204 ∧
      (delete_account i s).1.body = Body.empty ∧
      Account.find i (delete_account i s).2 = none ∧
      (delete_account i (delete_account i s).2).1.status = 404) := by
  constructor
  · intro h
    constructor <;> simp [get_accounts, delete_account, h]
  · intro a h
    have hd : Account.find i (storeDelete i s) = none := find_delete i s
    refine ⟨?_, ?_, ?_, ?_⟩ <;> simp [delete_account, h, hd]

/-- Witness for C7: on the one-account store, id 2 is absent (GET and
DELETE answer 404) while deleting id 1 answers 204, removes the record,
and a second delete answers 404. -/
theorem claim_C7_witness :
    ((get_accounts 2 store1).1.status = 404 ∧
      (delete_account 2 store1).1.status = 404) ∧
    ((delete_account 1 store1).1.status = 204 ∧
      (delete_account 1 store1).1.body = Body.empty ∧
      Account.find 1 (delete_account 1 store1).2 = none ∧
      (delete_account 1 (delete_account 1 store1).2).1.status = 404) :=
  ⟨(claim_C7_get_delete_not_found 2 store1).1 (by decide),
   (claim_C7_get_delete_not_found 1 store1).2 acct1 (by decide)⟩

/-- C8: round-trip — creating an account from a valid payload and then
reading the account at the returned id yields 200 with the record built
from the payload: `name`, `email` and `address` are the payload's
values, and `phone_number` and `date_joined`, when present in the
payload, equal the payload's values.  The store is assumed well-formed:
every persisted id is below the next fresh id. -/
theorem claim_C8_create_then_get (today : String) (body : PyDict) (s : Store)
    (hv : validate_account_data body = true)
    (hwf : ∀ a ∈ s.accounts, a.id < s.nextId) :
    (get_accounts s.nextId
        (create_accounts today (some "application/json") body s).2).1.status = 200 ∧
    (get_accounts s.nextId
        (create_accounts today (some "application/json") body s).2).1.body =
      Body.json (serialize { deserializeFields today body with id := s.nextId }) ∧
    pyGet body "name" = some (PyVal.str (deserializeFields today body).name) ∧
    pyGet body "email" = some (PyVal.str (deserializeFields today body).email) ∧
    pyGet body "address" = some (PyVal.str (deserializeFields today body).address) ∧
    (∀ p, pyGet body "phone_number" = some (PyVal.str p) →
      (deserializeFields today body).phone_number = some p) ∧
    (∀ dj, pyGet body "date_joined" = some (PyVal.str dj) →
      (deserializeFields today body).date_joined = dj) := by
  obtain ⟨⟨ns, hn⟩, ⟨es, he, hve⟩, ⟨ss, hs⟩, hp, hdj⟩ := (validate_iff body).mp hv
  have hcc : check_content_type (some "application/json") "application/json" = true := rfl
  have hfind : Account.find s.nextId
      (create_accounts today (some "application/json") body s).2 =
      some { deserializeFields today body with id := s.nextId } := by
    simp only [create_accounts, hcc, if_pos, deserialize, hv, if_true,
      Account.create, Account.find]
    exact find?_append_fresh s.accounts s.nextId _ hwf rfl
  refine ⟨?_, ?_, ?_, ?_, ?_, ?_, ?_⟩
  · simp [get_accounts, hfind]
  · simp [get_accounts, hfind]
  · simp [deserializeFields, pyGetStr, hn]
  · simp [deserializeFields, pyGetStr, he]
  · simp [deserializeFields, pyGetStr, hs]
  · intro p hp2
    simp [deserializeFields, hp2]
  · intro dj hdj2
    simp [deserializeFields, hdj2]

/-- Witness for C8: creating Ann's account in the empty store and
reading id 1 back. -/
theorem claim_C8_witness :
    (get_accounts store0.nextId
        (create_accounts "2023-01-01" (some "application/json") bodyAnn store0).2).1.status = 200 ∧
    (get_accounts store0.nextId
        (create_accounts "2023-01-01" (some "application/json") bodyAnn store0).2).1.body =
      Body.json (serialize { deserializeFields "2023-01-01" bodyAnn with id := store0.nextId }) ∧
    pyGet bodyAnn "name" = some (PyVal.str (deserializeFields "2023-01-01" bodyAnn).name) ∧
    pyGet bodyAnn "email" = some (PyVal.str (deserializeFields "2023-01-01" bodyAnn).email) ∧
    pyGet bodyAnn "address" = some (PyVal.str (deserializeFields "2023-01-01" bodyAnn).address) ∧
    (∀ p, pyGet bodyAnn "phone_number" = some (PyVal.str p) →
      (deserializeFields "2023-01-01" bodyAnn).phone_number = some p) ∧
    (∀ dj, pyGet bodyAnn "date_joined" = some (PyVal.str dj) →
      (deserializeFields "2023-01-01" bodyAnn).date_joined = dj) :=
  claim_C8_create_then_get "2023-01-01" bodyAnn store0 (by decide) (by simp [store0])

/-- C9: the PUT handler checks existence before validating the body: an
id that does not resolve is answered 404 for every body, valid or not,
and the store is unchanged. -/
theorem claim_C9_put_unknown_404 (today : String) (i : Nat) (body : PyDict)
    (s : Store) (hf : Account.find i s = none) :
    (update_account today i body s).1.status = 404 ∧
      (update_account today i body s).2 = s := by
  constructor <;> simp [update_account, hf]

/-- Witness for C9: a PUT of an invalid body to the unknown id 7 of the
empty store is answered 404, not 400. -/
theorem claim_C9_witness :
    (update_account "2023-01-01" 7 bodyBad store0).1.status = 404 ∧
      (update_account "2023-01-01" 7 bodyBad store0).2 = store0 :=
  claim_C9_put_unknown_404 "2023-01-01" 7 bodyBad store0 (by decide)

/-- C10: the validator imposes no non-emptiness constraint: a mapping
whose `name`, `address` or `phone_number` is the empty string still
validates, provided the rule list holds — required means present and of
string type only. -/
theorem claim_C10_empty_strings_valid (d : PyDict)
    (_hempty : pyGet d "name" = some (PyVal.str "") ∨
      pyGet d "address" = some (PyVal.str "") ∨
      pyGet d "phone_number" = some (PyVal.str ""))
    (hrules : claimValid d) :
    validate_account_data d = true :=
  (validate_iff d).mpr hrules

/-- Witness for C10: a mapping with empty `name`, `address` and
`phone_number` and a pattern-matching email validates. -/
theorem claim_C10_witness : validate_account_data bodyEmptyStrings = true := by
  refine claim_C10_empty_strings_valid bodyEmptyStrings (Or.inl rfl) ?_
  refine ⟨⟨"", rfl⟩, ⟨"a@b.c", rfl, by decide⟩, ⟨"", rfl⟩, ?_, ?_⟩
  · intro v hv
    exact ⟨"", (Option.some.inj hv).symm⟩
  · intro v hv
    exact Option.noConfusion hv
